import Mathlib

/-!
Shallow embedding of pkg/middleware/stored_session.go: the stored-session
loader of an authenticating reverse proxy.  External calls (the session
store, the provider refresh and validate callbacks, the lock primitives)
are modelled by an environment record holding the outcome each call would
produce; the loader functions mirror the Go control flow over that
environment and additionally return a trace of the observable effects
(callback invocations, saves, reloads, sleeps, log lines).
-/

namespace StoredSession

/-- Go errors as seen by this file: the two sentinel errors the code tests
with errors.Is, and generic errors carrying a message.  Wrapping with
fmt.Errorf uses the percent-v verb, which drops the error chain, so a
wrapped error is always a fresh generic error. -/
inductive GoError where
  | errNoCookie : GoError
  | errNotImplemented : GoError
  | mk : String → GoError
deriving DecidableEq, Repr

/-- errors.Is(err, http.ErrNoCookie) on a non-nil error. -/
def errorsIsNoCookie : GoError → Bool
  | GoError.errNoCookie => true
  | _ => false

/-- errors.Is(err, providers.ErrNotImplemented) on a possibly-nil error. -/
def errorsIsNotImplemented : Option GoError → Bool
  | some GoError.errNotImplemented => true
  | _ => false

/-- The session record (sessionsapi.SessionState): identity attributes and
the temporal attributes the loader reads.  Timestamps are integers
(milliseconds); tokens are opaque strings never inspected by the core. -/
structure SessionState where
  user : String
  email : String
  accessToken : String
  createdAt : Int
  expiresOn : Int
deriving DecidableEq, Repr

/-- Modelled from the spec: SessionState.Age is defined outside src; the
spec defines age as now minus the creation timestamp. -/
def SessionState.Age (now : Int) (s : SessionState) : Int :=
  now - s.createdAt

/-- Modelled from the spec: SessionState.IsExpired is defined outside src;
the spec says validation fails if now is at or past the expiry timestamp. -/
def SessionState.IsExpired (now : Int) (s : SessionState) : Bool :=
  s.expiresOn ≤ now

/-- Modelled from the spec: SessionState.CreatedAtNow is defined outside
src; the spec says a refresh resets the creation timestamp to now. -/
def SessionState.CreatedAtNow (now : Int) (s : SessionState) : SessionState :=
  { s with createdAt := now }

/-- SessionLockExpireTime = 5 * time.Second, in milliseconds. -/
def SessionLockExpireTime : Nat := 5000

/-- SessionLockPeekDelay = 50 * time.Millisecond, in milliseconds. -/
def SessionLockPeekDelay : Nat := 50

/-- Outcomes the external collaborators would produce for one request:
the first store.Load, the store.Load inside updateSessionFromStore, the
successive PeekLock results, the ObtainLock / ReleaseLock / Save / Clear
outcomes (none means success), the refresher callback result, and the
validator callback. -/
structure StoreEnv where
  load1 : Except GoError (Option SessionState)
  load2 : Except GoError (Option SessionState)
  peeks : List (Bool × Option GoError)
  obtainErr : Option GoError
  releaseErr : Option GoError
  refresherResult : Bool × Option GoError
  saveErr : Option GoError
  clearErr : Option GoError
  validator : SessionState → Bool

/-- Observable effects of one request: how often the provider refresh
callback ran, which sessions were passed to store.Save, how often the
store was re-loaded after a wait, the sleep durations of the peek loop,
and the log lines emitted. -/
structure Trace where
  refresherCalls : Nat
  saveCalls : List SessionState
  storeReloads : Nat
  sleeps : List Nat
  logs : List String
deriving DecidableEq, Repr

def Trace.empty : Trace :=
  { refresherCalls := 0, saveCalls := [], storeReloads := 0, sleeps := [], logs := [] }

/-- validateSession: fails when the session is expired, otherwise fails
exactly when the provider validator returns false. -/
def validateSession (now : Int) (validator : SessionState → Bool)
    (session : SessionState) : Option GoError :=
  if session.IsExpired now then
    some (GoError.mk "session is expired")
  else if validator session then
    none
  else
    some (GoError.mk "session is invalid")

/-- The peek loop of waitForPossibleSessionLock: consume peek results while
the lock is observed held, sleeping SessionLockPeekDelay after each held
observation; none models a loop that never observes the lock free. -/
def waitLoop : List (Bool × Option GoError) → Bool → List Nat →
    Option (Bool × Option GoError × List Nat)
  | [], _, _ => none
  | (isLocked, e) :: rest, wasLocked, sleeps =>
    if isLocked then
      waitLoop rest true (sleeps ++ [SessionLockPeekDelay])
    else
      some (wasLocked, e, sleeps)

/-- waitForPossibleSessionLock: poll PeekLock until the lock is observed
free; an error on the final peek is returned (with wasLocked reported as
false), otherwise report whether the lock was ever observed held. -/
def waitForPossibleSessionLock (peeks : List (Bool × Option GoError)) :
    Option (Except GoError Bool × List Nat) :=
  match waitLoop peeks false [] with
  | none => none
  | some (_, some e, sleeps) => some (Except.error e, sleeps)
  | some (wasLocked, none, sleeps) => some (Except.ok wasLocked, sleeps)

/-- Result of one loader stage: the (possibly replaced or mutated) session,
the returned error, and the effect trace. -/
structure RefreshOut where
  session : SessionState
  err : Option GoError
  trace : Trace
deriving Repr

/-- updateSessionFromStore: re-load the session from the store; a load
error or an absent record is an error, otherwise the in-memory session is
replaced wholesale by the loaded one. -/
def updateSessionFromStore (env : StoreEnv) (session : SessionState) : RefreshOut :=
  match env.load2 with
  | Except.error _ =>
    { session := session,
      err := some (GoError.mk "unable to load updated session from store"),
      trace := { Trace.empty with storeReloads := 1 } }
  | Except.ok none =>
    { session := session,
      err := some (GoError.mk "no session available to udpate from store"),
      trace := { Trace.empty with storeReloads := 1 } }
  | Except.ok (some stored) =>
    { session := stored, err := none,
      trace := { Trace.empty with storeReloads := 1 } }

/-- refreshSession: obtain the lock (an obtain failure is logged and skips
refresh without error), invoke the provider refresh callback, treat the
not-implemented sentinel as refreshed, reset the creation timestamp and
save when refreshed, and release the lock on every exit path (a release
failure is logged and does not change the returned error, since the Go
return value is not a named result). -/
def refreshSession (now : Int) (env : StoreEnv) (session : SessionState) : RefreshOut :=
  match env.obtainErr with
  | some _ =>
    { session := session, err := none,
      trace := { Trace.empty with logs := ["unable to obtain lock (skipping refresh)"] } }
  | none =>
    let releaseLogs : List String :=
      match env.releaseErr with
      | some _ => ["unable to release lock"]
      | none => []
    let refreshed0 := env.refresherResult.1
    let rerr := env.refresherResult.2
    if rerr.isSome && !(errorsIsNotImplemented rerr) then
      { session := session, err := some (GoError.mk "error refreshing tokens"),
        trace := { Trace.empty with refresherCalls := 1, logs := releaseLogs } }
    else
      let refreshed := if errorsIsNotImplemented rerr then true else refreshed0
      if refreshed then
        let updated := session.CreatedAtNow now
        match env.saveErr with
        | some _ =>
          let tr : Trace :=
            { refresherCalls := 1, saveCalls := [updated], storeReloads := 0,
              sleeps := [], logs := ["error saving session"] ++ releaseLogs }
          { session := updated, err := some (GoError.mk "error saving session"), trace := tr }
        | none =>
          let tr : Trace :=
            { refresherCalls := 1, saveCalls := [updated], storeReloads := 0,
              sleeps := [], logs := releaseLogs }
          { session := updated, err := none, trace := tr }
      else
        { session := session, err := none,
          trace := { Trace.empty with refresherCalls := 1, logs := releaseLogs } }

/-- refreshSessionIfNeeded: skip when refresh is disabled or the session is
young; otherwise wait out a possible lock (an error from the peek loop is
returned), re-load from the store if the lock was observed held, and
otherwise attempt the refresh, logging a refresh failure and returning it.
none models the peek loop never terminating. -/
def refreshSessionIfNeeded (now refreshPeriod : Int) (env : StoreEnv)
    (session : SessionState) : Option RefreshOut :=
  if refreshPeriod ≤ 0 ∨ session.Age now < refreshPeriod then
    some { session := session, err := none, trace := Trace.empty }
  else
    match waitForPossibleSessionLock env.peeks with
    | none => none
    | some (Except.error e, sleeps) =>
      some { session := session, err := some e,
             trace := { Trace.empty with sleeps := sleeps } }
    | some (Except.ok wasLocked, sleeps) =>
      if wasLocked then
        let u := updateSessionFromStore env session
        let tr : Trace :=
          { u.trace with sleeps := sleeps, logs := ["update session from store"] ++ u.trace.logs }
        some { u with trace := tr }
      else
        let r := refreshSession now env session
        let failLog : List String :=
          match r.err with
          | some _ => ["Unable to refresh session"]
          | none => []
        let tr : Trace :=
          { r.trace with sleeps := sleeps, logs := ["Refreshing session"] ++ r.trace.logs ++ failLog }
        some { r with trace := tr }

/-- Result of getValidatedSession: the session to attach (none on any
failure), the returned error, and the trace. -/
structure GVSOut where
  session : Option SessionState
  err : Option GoError
  trace : Trace
deriving Repr

/-- getValidatedSession: load the session (error or absence short-circuit),
refresh it if needed (any refresh error is wrapped and returned with no
session), then validate it (a validation error is returned with no
session). -/
def getValidatedSession (now refreshPeriod : Int) (env : StoreEnv) : Option GVSOut :=
  match env.load1 with
  | Except.error e => some { session := none, err := some e, trace := Trace.empty }
  | Except.ok none => some { session := none, err := none, trace := Trace.empty }
  | Except.ok (some session) =>
    match refreshSessionIfNeeded now refreshPeriod env session with
    | none => none
    | some r =>
      match r.err with
      | some _ =>
        some { session := none,
               err := some (GoError.mk "error refreshing access token for session"),
               trace := r.trace }
      | none =>
        match validateSession now env.validator r.session with
        | some e => some { session := none, err := some e, trace := r.trace }
        | none => some { session := some r.session, err := none, trace := r.trace }

/-- Outcome of the loadSession handler for one request: the session
attached to the request scope, how often the next handler ran, how often
store.Clear was invoked, and the trace. -/
structure LoadOut where
  scopeSession : Option SessionState
  nextCalls : Nat
  clearCalls : Nat
  trace : Trace
deriving Repr

/-- loadSession: when the scope already carries a session, pass straight to
the next handler; otherwise run getValidatedSession, clear the stored
session on any error other than ErrNoCookie (a clear failure is logged,
never propagated), attach whatever session was returned, and call the next
handler. -/
def loadSession (now refreshPeriod : Int) (env : StoreEnv)
    (scopeSession : Option SessionState) : Option LoadOut :=
  match scopeSession with
  | some s =>
    some { scopeSession := some s, nextCalls := 1, clearCalls := 0, trace := Trace.empty }
  | none =>
    match getValidatedSession now refreshPeriod env with
    | none => none
    | some g =>
      let doClear :=
        match g.err with
        | some e => !(errorsIsNoCookie e)
        | none => false
      let clearLogs : List String :=
        if doClear then
          ["Error loading cookied session, removing session"] ++
            (match env.clearErr with
             | some _ => ["Error removing session"]
             | none => [])
        else []
      some { scopeSession := g.session, nextCalls := 1,
             clearCalls := if doClear then 1 else 0,
             trace := { g.trace with logs := g.trace.logs ++ clearLogs } }

/-!
Interleaving model for the concurrency claim: two request tasks, both
finding refresh due on the same session key, each running the lock-facing
control flow of refreshSessionIfNeeded and refreshSession as atomic steps
over a shared lock cell.  Task A is identified by false, task B by true.
The transitions mirror the Go flow exactly: a peek that observes the lock
held records wasLocked and peeks again; a peek that observes it free moves
on to re-load when wasLocked was set and otherwise to ObtainLock; a denied
ObtainLock skips refresh (done); an obtained lock runs the provider
callback and then releases.
-/

/-- Program counter of one request task inside the refresh path. -/
inductive TaskPC where
  | peekPC : TaskPC
  | obtainPC : TaskPC
  | refreshPC : TaskPC
  | releasePC : TaskPC
  | reloadPC : TaskPC
  | donePC : TaskPC
deriving DecidableEq, Repr

/-- One request task: its program counter and whether any of its peeks
observed the lock held. -/
structure Task where
  pc : TaskPC
  wasLocked : Bool
deriving DecidableEq, Repr

/-- Shared system state: the store-mediated lock cell (holding the id of
the owning task), the two tasks, and the number of provider refresh
callback invocations so far. -/
structure Sys where
  lockHolder : Option Bool
  taskA : Task
  taskB : Task
  callbackCalls : Nat
deriving DecidableEq, Repr

/-- One atomic step of task A (id false). -/
def stepA (s : Sys) : Sys :=
  match s.taskA.pc with
  | TaskPC.peekPC =>
    if s.lockHolder.isSome then
      { s with taskA := { s.taskA with wasLocked := true } }
    else if s.taskA.wasLocked then
      { s with taskA := { s.taskA with pc := TaskPC.reloadPC } }
    else
      { s with taskA := { s.taskA with pc := TaskPC.obtainPC } }
  | TaskPC.obtainPC =>
    if s.lockHolder.isSome then
      { s with taskA := { s.taskA with pc := TaskPC.donePC } }
    else
      { s with taskA := { s.taskA with pc := TaskPC.refreshPC }, lockHolder := some false }
  | TaskPC.refreshPC =>
    { s with taskA := { s.taskA with pc := TaskPC.releasePC },
             callbackCalls := s.callbackCalls + 1 }
  | TaskPC.releasePC =>
    { s with taskA := { s.taskA with pc := TaskPC.donePC }, lockHolder := none }
  | TaskPC.reloadPC =>
    { s with taskA := { s.taskA with pc := TaskPC.donePC } }
  | TaskPC.donePC => s

/-- One atomic step of task B (id true). -/
def stepB (s : Sys) : Sys :=
  match s.taskB.pc with
  | TaskPC.peekPC =>
    if s.lockHolder.isSome then
      { s with taskB := { s.taskB with wasLocked := true } }
    else if s.taskB.wasLocked then
      { s with taskB := { s.taskB with pc := TaskPC.reloadPC } }
    else
      { s with taskB := { s.taskB with pc := TaskPC.obtainPC } }
  | TaskPC.obtainPC =>
    if s.lockHolder.isSome then
      { s with taskB := { s.taskB with pc := TaskPC.donePC } }
    else
      { s with taskB := { s.taskB with pc := TaskPC.refreshPC }, lockHolder := some true }
  | TaskPC.refreshPC =>
    { s with taskB := { s.taskB with pc := TaskPC.releasePC },
             callbackCalls := s.callbackCalls + 1 }
  | TaskPC.releasePC =>
    { s with taskB := { s.taskB with pc := TaskPC.donePC }, lockHolder := none }
  | TaskPC.reloadPC =>
    { s with taskB := { s.taskB with pc := TaskPC.donePC } }
  | TaskPC.donePC => s

/-- Step of the task named by the scheduler (false steps A, true steps B). -/
def stepTask (s : Sys) (i : Bool) : Sys :=
  if i then stepB s else stepA s

/-- Run a finite schedule of task steps. -/
def runSched : List Bool → Sys → Sys
  | [], s => s
  | i :: rest, s => runSched rest (stepTask s i)

/-- Both tasks start at the peek, with refresh due and the lock free. -/
def initSys : Sys :=
  { lockHolder := none,
    taskA := { pc := TaskPC.peekPC, wasLocked := false },
    taskB := { pc := TaskPC.peekPC, wasLocked := false },
    callbackCalls := 0 }

/-- A task is inside the refresh critical section (it has obtained the
lock and has not yet released it). -/
def inCSb (t : Task) : Bool :=
  t.pc == TaskPC.refreshPC || t.pc == TaskPC.releasePC

/-- The lock invariant tying critical-section occupancy to lock ownership. -/
def lockInv (s : Sys) : Prop :=
  (inCSb s.taskA = true ↔ s.lockHolder = some false) ∧
  (inCSb s.taskB = true ↔ s.lockHolder = some true)

/-!
Concrete sessions and environments used by the per-claim evaluations.
-/

/-- A loaded session: created at 0, expiring at 1000.  At now = 200 with
refresh period 100 it is due for refresh and far from expiry. -/
def sess0 : SessionState :=
  { user := "u", email := "e", accessToken := "t", createdAt := 0, expiresOn := 1000 }

/-- A different record sitting in the store, distinguishable from sess0. -/
def other0 : SessionState :=
  { user := "w", email := "e2", accessToken := "t2", createdAt := 150, expiresOn := 2000 }

/-- Environment for C1: lock free, refresher fails with a generic error,
validator accepts. -/
def envC1 : StoreEnv :=
  { load1 := Except.ok (some sess0), load2 := Except.ok none,
    peeks := [(false, none)], obtainErr := none, releaseErr := none,
    refresherResult := (false, some (GoError.mk "provider failure")),
    saveErr := none, clearErr := none, validator := fun _ => true }

/-- Environment for C2: refresher returns the not-implemented sentinel. -/
def envC2 : StoreEnv :=
  { load1 := Except.ok (some sess0), load2 := Except.ok none,
    peeks := [(false, none)], obtainErr := none, releaseErr := none,
    refresherResult := (false, some GoError.errNotImplemented),
    saveErr := none, clearErr := none, validator := fun _ => true }

/-- Environment for C3: refresher succeeds with refreshed = true and the
subsequent save fails. -/
def envC3 : StoreEnv :=
  { load1 := Except.ok (some sess0), load2 := Except.ok none,
    peeks := [(false, none)], obtainErr := none, releaseErr := none,
    refresherResult := (true, none),
    saveErr := some (GoError.mk "save io failure"), clearErr := none,
    validator := fun _ => true }

/-- Environment for C6 and its witness: the initial load fails with a
generic storage error and the subsequent clear also fails. -/
def envC6 : StoreEnv :=
  { load1 := Except.error (GoError.mk "load io failure"), load2 := Except.ok none,
    peeks := [], obtainErr := none, releaseErr := none,
    refresherResult := (false, none),
    saveErr := none, clearErr := some (GoError.mk "clear io failure"),
    validator := fun _ => true }

/-- The value getValidatedSession produces under envC6. -/
def gC6 : GVSOut :=
  { session := none, err := some (GoError.mk "load io failure"), trace := Trace.empty }

/-- Environment for C7 and C10 witnesses: one peek observes the lock held,
the next observes it free, and the re-load yields other0. -/
def envC7 : StoreEnv :=
  { load1 := Except.ok (some sess0), load2 := Except.ok (some other0),
    peeks := [(true, none), (false, none)], obtainErr := none, releaseErr := none,
    refresherResult := (false, none),
    saveErr := none, clearErr := none, validator := fun _ => true }

/-- Environment for C8: the lock is observed free but ObtainLock is then
denied; the store still holds other0 for a hypothetical re-load. -/
def envC8 : StoreEnv :=
  { load1 := Except.ok (some sess0), load2 := Except.ok (some other0),
    peeks := [(false, none)], obtainErr := some (GoError.mk "lock already held"),
    releaseErr := none, refresherResult := (false, none),
    saveErr := none, clearErr := none, validator := fun _ => true }

/-- Environment for C9: the final peek reports the lock free but returns a
store error. -/
def envC9 : StoreEnv :=
  { load1 := Except.ok (some sess0), load2 := Except.ok (some other0),
    peeks := [(false, some (GoError.mk "peek store failure"))],
    obtainErr := none, releaseErr := none, refresherResult := (false, none),
    saveErr := none, clearErr := none, validator := fun _ => true }

/-- Environment for the C9 witness parts: lock obtained, refresher a no-op,
release fails. -/
def envC9b : StoreEnv :=
  { load1 := Except.ok (some sess0), load2 := Except.ok (some other0),
    peeks := [(false, none)], obtainErr := none,
    releaseErr := some (GoError.mk "release store failure"),
    refresherResult := (false, none),
    saveErr := none, clearErr := none, validator := fun _ => true }

/-- Environment for C10: a wait ends, and the re-load finds no session. -/
def envC10 : StoreEnv :=
  { load1 := Except.ok (some sess0), load2 := Except.ok none,
    peeks := [(true, none), (false, none)], obtainErr := none, releaseErr := none,
    refresherResult := (false, none),
    saveErr := none, clearErr := none, validator := fun _ => true }

/-- Environment whose initial load reports the session absent. -/
def envAbsent : StoreEnv :=
  { load1 := Except.ok none, load2 := Except.ok none,
    peeks := [], obtainErr := none, releaseErr := none,
    refresherResult := (false, none),
    saveErr := none, clearErr := none, validator := fun _ => true }

/-- An already expired session: expiry 3 is in the past at now = 5. -/
def sessExpired : SessionState :=
  { user := "u", email := "e", accessToken := "t", createdAt := 0, expiresOn := 3 }

/-!
Helper lemmas shared by the per-claim theorems.
-/

/-- The peek loop over k held observations followed by a free one: it
reports wasLocked when any observation was held and sleeps once per held
observation. -/
theorem waitLoop_replicate (k : Nat) (was : Bool) (sleeps : List Nat) :
    waitLoop (List.replicate k (true, none) ++ [(false, none)]) was sleeps =
      some (was || decide (0 < k), none, sleeps ++ List.replicate k SessionLockPeekDelay) := by
  induction k generalizing was sleeps with
  | zero => simp [waitLoop]
  | succ n ih =>
    rw [List.replicate_succ, List.cons_append]
    simp only [waitLoop, if_pos]
    rw [ih]
    simp [List.replicate_succ]

/-- waitForPossibleSessionLock over k held observations followed by a free
one: no error, wasLocked reported exactly when k is positive, one fixed
delay slept per held observation. -/
theorem waitFor_replicate (k : Nat) :
    waitForPossibleSessionLock (List.replicate k (true, none) ++ [(false, none)]) =
      some (Except.ok (decide (0 < k)), List.replicate k SessionLockPeekDelay) := by
  unfold waitForPossibleSessionLock
  rw [waitLoop_replicate]
  simp

/-- getValidatedSession attaches no session whenever it returns an error. -/
theorem gvs_session_none_of_err (now rp : Int) (env : StoreEnv) (g : GVSOut)
    (h : getValidatedSession now rp env = some g) (e : GoError) (he : g.err = some e) :
    g.session = none := by
  unfold getValidatedSession at h
  split at h
  · injection h with h; subst h; rfl
  · injection h with h; subst h; simp at he
  · split at h
    · exact absurd h (by simp)
    · split at h
      · injection h with h; subst h; rfl
      · split at h
        · injection h with h; subst h; rfl
        · injection h with h; subst h; simp at he

/-- Every defined run of the loadSession handler invokes the next handler
exactly once. -/
theorem loadSession_next_once (now rp : Int) (env : StoreEnv)
    (scope : Option SessionState) (r : LoadOut)
    (h : loadSession now rp env scope = some r) : r.nextCalls = 1 := by
  unfold loadSession at h
  split at h
  · injection h with h; subst h; rfl
  · split at h
    · exact absurd h (by simp)
    · injection h with h; subst h; rfl

/-- C5: a session reaching validation fails exactly when it is expired or
the provider validator rejects it, expiry dominating the validator result;
validation is boolean with no partial outcome.  Uses the spec-modelled
SessionState.IsExpired, which fails a session once now is at or past its
expiry timestamp. -/
theorem c5_validation_boolean (now : Int) (v : SessionState → Bool) (s : SessionState) :
    ((validateSession now v s).isSome = true ↔ (s.IsExpired now = true ∨ v s = false)) ∧
    (s.IsExpired now = true → (validateSession now v s).isSome = true) := by
  unfold validateSession
  cases he : s.IsExpired now <;> cases hv : v s <;> simp [he, hv]

/-- C5 witness: an expired session fails validation even though the
validator accepts everything. -/
theorem c5_witness : (validateSession 5 (fun _ => true) sessExpired).isSome = true :=
  (c5_validation_boolean 5 (fun _ => true) sessExpired).2 (by decide)

/-- C1: evaluation at the failing input.  The session is due for refresh,
unexpired, and the validator accepts it, the lock is obtained, and the
refresher returns a generic error.  The error is logged, but contrary to
the claim (and to the comments inside refreshSessionIfNeeded and
getValidatedSession) it is fatal: the error propagates, validation never
runs, the store is cleared and no session is attached. -/
theorem c1_refresh_error_discards_session :
    sess0.IsExpired 200 = false ∧
    validateSession 200 envC1.validator sess0 = none ∧
    loadSession 200 100 envC1 none =
      some { scopeSession := none, nextCalls := 1, clearCalls := 1,
             trace := { refresherCalls := 1, saveCalls := [], storeReloads := 0, sleeps := [],
                        logs := ["Refreshing session", "Unable to refresh session",
                                 "Error loading cookied session, removing session"] } } :=
  ⟨rfl, rfl, rfl⟩

/-- C3: evaluation at the failing input.  The refresher reports refreshed
and the save fails.  The in-memory refresh is kept (the saved record shows
the reset timestamp) and the refreshed session would pass validation, but
contrary to the claim the save error is fatal: it propagates, the store is
cleared and no session is attached. -/
theorem c3_save_error_discards_session :
    (sess0.CreatedAtNow 200).IsExpired 200 = false ∧
    validateSession 200 envC3.validator (sess0.CreatedAtNow 200) = none ∧
    loadSession 200 100 envC3 none =
      some { scopeSession := none, nextCalls := 1, clearCalls := 1,
             trace := { refresherCalls := 1, saveCalls := [sess0.CreatedAtNow 200],
                        storeReloads := 0, sleeps := [],
                        logs := ["Refreshing session", "error saving session",
                                 "Unable to refresh session",
                                 "Error loading cookied session, removing session"] } } :=
  ⟨rfl, rfl, rfl⟩

/-- C2 counterexample: with the refresher returning the not-implemented
sentinel, store.Save is invoked (with the timestamp-reset session),
refuting the claim that Save is not invoked on this path. -/
theorem c2_counterexample :
    envC2.refresherResult.2 = some GoError.errNotImplemented ∧
    (refreshSession 200 envC2 sess0).trace.saveCalls ≠ [] ∧
    (refreshSession 200 envC2 sess0).trace.saveCalls = [sess0.CreatedAtNow 200] := by
  refine ⟨rfl, ?_, rfl⟩
  decide

/-- C2 as amended: on the not-implemented sentinel path with the lock
obtained, the loader resets the creation timestamp to now and persists:
store.Save is invoked exactly once, with the timestamp-reset session. -/
theorem c2_sentinel_saves (now : Int) (env : StoreEnv) (session : SessionState)
    (hobt : env.obtainErr = none)
    (hsent : env.refresherResult.2 = some GoError.errNotImplemented) :
    (refreshSession now env session).session = session.CreatedAtNow now ∧
    (refreshSession now env session).trace.saveCalls = [session.CreatedAtNow now] := by
  unfold refreshSession
  rw [hobt]
  simp only [hsent, errorsIsNotImplemented]
  cases hs : env.saveErr <;> cases hr : env.releaseErr <;> simp

/-- C2 witness: the amended statement evaluated on the concrete sentinel
environment. -/
theorem c2_sentinel_saves_witness :
    (refreshSession 200 envC2 sess0).session = sess0.CreatedAtNow 200 ∧
    (refreshSession 200 envC2 sess0).trace.saveCalls = [sess0.CreatedAtNow 200] :=
  c2_sentinel_saves 200 envC2 sess0 rfl rfl

/-- C6: on any error from Load, Refresh or Validate other than ErrNoCookie,
the loader clears the stored session (a clear failure is only logged),
attaches no session, and still invokes the next handler exactly once; and
every defined run of the handler, whatever its outcome, invokes the next
handler exactly once. -/
theorem c6_error_clears_and_next_once (now rp : Int) (env : StoreEnv) (g : GVSOut)
    (e : GoError) (hg : getValidatedSession now rp env = some g)
    (he : g.err = some e) (hnc : errorsIsNoCookie e = false) :
    (∃ r, loadSession now rp env none = some r ∧
      r.scopeSession = none ∧ r.clearCalls = 1 ∧ r.nextCalls = 1 ∧
      (env.clearErr.isSome = true → "Error removing session" ∈ r.trace.logs)) ∧
    (∀ (now2 rp2 : Int) (env2 : StoreEnv) (scope2 : Option SessionState) (r2 : LoadOut),
      loadSession now2 rp2 env2 scope2 = some r2 → r2.nextCalls = 1) := by
  constructor
  · unfold loadSession
    rw [hg]
    refine ⟨_, rfl, ?_, ?_, rfl, ?_⟩
    · exact gvs_session_none_of_err now rp env g hg e he
    · simp [he, hnc]
    · intro hc
      cases hce : env.clearErr with
      | none => rw [hce] at hc; simp at hc
      | some ce => simp [he, hnc, hce]
  · exact fun now2 rp2 env2 scope2 r2 h => loadSession_next_once now2 rp2 env2 scope2 r2 h

/-- C6 witness: the statement evaluated on a concrete environment whose
load fails with a generic storage error and whose clear also fails. -/
theorem c6_witness :
    ((∃ r, loadSession 0 0 envC6 none = some r ∧
      r.scopeSession = none ∧ r.clearCalls = 1 ∧ r.nextCalls = 1 ∧
      (envC6.clearErr.isSome = true → "Error removing session" ∈ r.trace.logs)) ∧
    (∀ (now2 rp2 : Int) (env2 : StoreEnv) (scope2 : Option SessionState) (r2 : LoadOut),
      loadSession now2 rp2 env2 scope2 = some r2 → r2.nextCalls = 1)) :=
  c6_error_clears_and_next_once 0 0 envC6 gC6 (GoError.mk "load io failure") rfl rfl rfl

/-- C7: a request that finds refresh due and observes the lock held does
not invoke the refresh callback; it sleeps the fixed 50 ms delay once per
held observation until the lock is observed free, re-loads the record from
the store exactly once, and wholesale-replaces its in-memory session with
the loaded one before proceeding. -/
theorem c7_waiter_reloads (now rp : Int) (env : StoreEnv) (session stored : SessionState)
    (k : Nat) (hk : 0 < k)
    (hpeeks : env.peeks = List.replicate k (true, none) ++ [(false, none)])
    (hload2 : env.load2 = Except.ok (some stored))
    (hrp : 0 < rp) (hage : rp ≤ session.Age now) :
    refreshSessionIfNeeded now rp env session =
      some { session := stored, err := none,
             trace := { refresherCalls := 0, saveCalls := [], storeReloads := 1,
                        sleeps := List.replicate k SessionLockPeekDelay,
                        logs := ["update session from store"] } } ∧
    SessionLockPeekDelay = 50 := by
  refine ⟨?_, rfl⟩
  unfold refreshSessionIfNeeded
  rw [if_neg (by simp only [not_or, not_le, not_lt]; exact ⟨hrp, hage⟩)]
  rw [hpeeks, waitFor_replicate]
  rw [decide_eq_true hk]
  simp [updateSessionFromStore, hload2, Trace.empty]

/-- C7 witness: one held observation, then the waiter reloads other0. -/
theorem c7_witness :
    (refreshSessionIfNeeded 200 100 envC7 sess0 =
      some { session := other0, err := none,
             trace := { refresherCalls := 0, saveCalls := [], storeReloads := 1,
                        sleeps := List.replicate 1 SessionLockPeekDelay,
                        logs := ["update session from store"] } } ∧
    SessionLockPeekDelay = 50) :=
  c7_waiter_reloads 200 100 envC7 sess0 other0 1 (by decide) rfl rfl (by decide) (by decide)

/-- C8 counterexample: refresh is due, the peek observes the lock free and
ObtainLock is then denied while a different record sits in the store.  The
loader neither waits (no sleeps) nor re-loads (no store reloads): it keeps
its own in-memory session, refuting the claim that a denied ObtainLock
enters the wait protocol and adopts the freshly loaded record. -/
theorem c8_counterexample :
    envC8.obtainErr = some (GoError.mk "lock already held") ∧
    envC8.load2 = Except.ok (some other0) ∧
    sess0 ≠ other0 ∧
    refreshSessionIfNeeded 200 100 envC8 sess0 =
      some { session := sess0, err := none,
             trace := { refresherCalls := 0, saveCalls := [], storeReloads := 0,
                        sleeps := [],
                        logs := ["Refreshing session",
                                 "unable to obtain lock (skipping refresh)"] } } := by
  refine ⟨rfl, rfl, by decide, rfl⟩

/-- C8 as amended: when the peek observes the lock free and ObtainLock is
then denied, the loader logs, skips the refresh entirely and proceeds with
its current in-memory session: no callback invocation, no wait, no re-load
and no error. -/
theorem c8_obtain_denied_skips (now rp : Int) (env : StoreEnv) (session : SessionState)
    (e : GoError)
    (hpeeks : env.peeks = [(false, none)])
    (hobt : env.obtainErr = some e)
    (hrp : 0 < rp) (hage : rp ≤ session.Age now) :
    refreshSessionIfNeeded now rp env session =
      some { session := session, err := none,
             trace := { refresherCalls := 0, saveCalls := [], storeReloads := 0,
                        sleeps := [],
                        logs := ["Refreshing session",
                                 "unable to obtain lock (skipping refresh)"] } } := by
  unfold refreshSessionIfNeeded
  rw [if_neg (by simp only [not_or, not_le, not_lt]; exact ⟨hrp, hage⟩)]
  rw [hpeeks]
  simp [waitForPossibleSessionLock, waitLoop, refreshSession, hobt, Trace.empty]

/-- C8 witness: the amended statement evaluated on the concrete
denied-lock environment. -/
theorem c8_obtain_denied_skips_witness :
    refreshSessionIfNeeded 200 100 envC8 sess0 =
      some { session := sess0, err := none,
             trace := { refresherCalls := 0, saveCalls := [], storeReloads := 0,
                        sleeps := [],
                        logs := ["Refreshing session",
                                 "unable to obtain lock (skipping refresh)"] } } :=
  c8_obtain_denied_skips 200 100 envC8 sess0 (GoError.mk "lock already held")
    rfl rfl (by decide) (by decide)

/-- C9 counterexample: a PeekLock store error on a free observation is
fatal, refuting the claim that no lock error causes the session to be
discarded: the store is cleared and no session is attached. -/
theorem c9_counterexample :
    envC9.peeks = [(false, some (GoError.mk "peek store failure"))] ∧
    loadSession 200 100 envC9 none =
      some { scopeSession := none, nextCalls := 1, clearCalls := 1,
             trace := { refresherCalls := 0, saveCalls := [], storeReloads := 0,
                        sleeps := [],
                        logs := ["Error loading cookied session, removing session"] } } :=
  ⟨rfl, rfl⟩

/-- C9 as amended: an ObtainLock failure (contention or store error) is
logged and skips refresh without error, keeping the current session; a
ReleaseLock failure is logged and changes neither the result session nor
the returned error; but a PeekLock error returned with a free observation
propagates as a fatal error: the store is cleared and no session is
attached. -/
theorem c9_lock_error_handling :
    (∀ (now : Int) (env : StoreEnv) (session : SessionState) (e : GoError),
      env.obtainErr = some e →
      refreshSession now env session =
        { session := session, err := none,
          trace := { refresherCalls := 0, saveCalls := [], storeReloads := 0,
                     sleeps := [],
                     logs := ["unable to obtain lock (skipping refresh)"] } }) ∧
    (∀ (now : Int) (env : StoreEnv) (session : SessionState) (e : GoError),
      env.obtainErr = none → env.releaseErr = some e →
      env.refresherResult = (false, none) →
      (refreshSession now env session).err = none ∧
      (refreshSession now env session).session = session ∧
      "unable to release lock" ∈ (refreshSession now env session).trace.logs) ∧
    (∀ (now rp : Int) (env : StoreEnv) (session : SessionState) (e : GoError),
      env.peeks = [(false, some e)] → 0 < rp → rp ≤ session.Age now →
      env.load1 = Except.ok (some session) →
      ∃ out, loadSession now rp env none = some out ∧
        out.scopeSession = none ∧ out.clearCalls = 1) := by
  refine ⟨?_, ?_, ?_⟩
  · intro now env session e hobt
    unfold refreshSession
    rw [hobt]
    rfl
  · intro now env session e hobt hrel hres
    unfold refreshSession
    rw [hobt]
    simp [hres, hrel, errorsIsNotImplemented]
  · intro now rp env session e hpeeks hrp hage hload1
    obtain ⟨l1, l2, pk, ob, rl, rf, sv, cl, vd⟩ := env
    dsimp only at hpeeks hload1
    subst hpeeks hload1
    have hguard : ¬ (rp ≤ 0 ∨ session.Age now < rp) := by
      simp only [not_or, not_le, not_lt]; exact ⟨hrp, hage⟩
    have h1 : refreshSessionIfNeeded now rp
        { load1 := Except.ok (some session), load2 := l2, peeks := [(false, some e)],
          obtainErr := ob, releaseErr := rl, refresherResult := rf,
          saveErr := sv, clearErr := cl, validator := vd } session =
        some { session := session, err := some e,
               trace := { refresherCalls := 0, saveCalls := [], storeReloads := 0,
                          sleeps := [], logs := [] } } := by
      unfold refreshSessionIfNeeded
      rw [if_neg hguard]
      rfl
    cases cl with
    | none =>
      refine ⟨{ scopeSession := none, nextCalls := 1, clearCalls := 1,
                trace := { refresherCalls := 0, saveCalls := [], storeReloads := 0,
                           sleeps := [],
                           logs := ["Error loading cookied session, removing session"] } },
              ?_, rfl, rfl⟩
      simp only [loadSession, getValidatedSession, h1]
      rfl
    | some ce =>
      refine ⟨{ scopeSession := none, nextCalls := 1, clearCalls := 1,
                trace := { refresherCalls := 0, saveCalls := [], storeReloads := 0,
                           sleeps := [],
                           logs := ["Error loading cookied session, removing session",
                                    "Error removing session"] } },
              ?_, rfl, rfl⟩
      simp only [loadSession, getValidatedSession, h1]
      rfl

/-- C9 witness: the three amended parts evaluated on concrete
environments. -/
theorem c9_witness :
    (refreshSession 200 envC8 sess0 =
      { session := sess0, err := none,
        trace := { refresherCalls := 0, saveCalls := [], storeReloads := 0,
                   sleeps := [],
                   logs := ["unable to obtain lock (skipping refresh)"] } }) ∧
    ((refreshSession 200 envC9b sess0).err = none ∧
     (refreshSession 200 envC9b sess0).session = sess0 ∧
     "unable to release lock" ∈ (refreshSession 200 envC9b sess0).trace.logs) ∧
    (∃ out, loadSession 200 100 envC9 none = some out ∧
      out.scopeSession = none ∧ out.clearCalls = 1) :=
  ⟨c9_lock_error_handling.1 200 envC8 sess0 (GoError.mk "lock already held") rfl,
   c9_lock_error_handling.2.1 200 envC9b sess0 (GoError.mk "release store failure") rfl rfl rfl,
   c9_lock_error_handling.2.2 200 100 envC9 sess0 (GoError.mk "peek store failure")
     rfl (by decide) (by decide) rfl⟩

/-- C10: when a waited-out refresh ends and the re-load finds the session
absent, updateSessionFromStore returns an error rather than the silent
anonymous path, and that error is fatal: the store is cleared and no
session is attached; whereas the same absent condition on the initial load
is silently non-fatal with no clear. -/
theorem c10_absent_after_wait_is_fatal (now rp : Int) (env : StoreEnv)
    (session : SessionState) (k : Nat) (hk : 0 < k)
    (hload1 : env.load1 = Except.ok (some session))
    (hpeeks : env.peeks = List.replicate k (true, none) ++ [(false, none)])
    (hload2 : env.load2 = Except.ok none)
    (hrp : 0 < rp) (hage : rp ≤ session.Age now) :
    (∃ r, refreshSessionIfNeeded now rp env session = some r ∧
        r.err = some (GoError.mk "no session available to udpate from store")) ∧
    (∃ out, loadSession now rp env none = some out ∧
        out.scopeSession = none ∧ out.clearCalls = 1) ∧
    (∀ (now2 rp2 : Int) (env2 : StoreEnv), env2.load1 = Except.ok none →
        loadSession now2 rp2 env2 none =
          some { scopeSession := none, nextCalls := 1, clearCalls := 0,
                 trace := Trace.empty }) := by
  obtain ⟨l1, l2, pk, ob, rl, rf, sv, cl, vd⟩ := env
  dsimp only at hload1 hpeeks hload2
  subst hload1 hpeeks hload2
  have hguard : ¬ (rp ≤ 0 ∨ session.Age now < rp) := by
    simp only [not_or, not_le, not_lt]; exact ⟨hrp, hage⟩
  have hrefresh :
      refreshSessionIfNeeded now rp
        { load1 := Except.ok (some session), load2 := Except.ok none,
          peeks := List.replicate k (true, none) ++ [(false, none)],
          obtainErr := ob, releaseErr := rl, refresherResult := rf,
          saveErr := sv, clearErr := cl, validator := vd } session =
      some { session := session,
             err := some (GoError.mk "no session available to udpate from store"),
             trace := { refresherCalls := 0, saveCalls := [], storeReloads := 1,
                        sleeps := List.replicate k SessionLockPeekDelay,
                        logs := ["update session from store"] } } := by
    unfold refreshSessionIfNeeded
    rw [if_neg hguard]
    dsimp only
    rw [waitFor_replicate, decide_eq_true hk]
    rfl
  refine ⟨⟨_, hrefresh, rfl⟩, ?_, ?_⟩
  · cases cl with
    | none =>
      refine ⟨{ scopeSession := none, nextCalls := 1, clearCalls := 1,
                trace := { refresherCalls := 0, saveCalls := [], storeReloads := 1,
                           sleeps := List.replicate k SessionLockPeekDelay,
                           logs := ["update session from store",
                                    "Error loading cookied session, removing session"] } },
              ?_, rfl, rfl⟩
      simp only [loadSession, getValidatedSession, hrefresh]
      rfl
    | some ce =>
      refine ⟨{ scopeSession := none, nextCalls := 1, clearCalls := 1,
                trace := { refresherCalls := 0, saveCalls := [], storeReloads := 1,
                           sleeps := List.replicate k SessionLockPeekDelay,
                           logs := ["update session from store",
                                    "Error loading cookied session, removing session",
                                    "Error removing session"] } },
              ?_, rfl, rfl⟩
      simp only [loadSession, getValidatedSession, hrefresh]
      rfl
  · intro now2 rp2 env2 hload
    obtain ⟨m1, m2, mpk, mob, mrl, mrf, msv, mcl, mvd⟩ := env2
    dsimp only at hload
    subst hload
    rfl

/-- C10 witness: the statement evaluated on the concrete environment with
one held peek, a free peek and an absent re-load. -/
theorem c10_witness :
    ((∃ r, refreshSessionIfNeeded 200 100 envC10 sess0 = some r ∧
        r.err = some (GoError.mk "no session available to udpate from store")) ∧
    (∃ out, loadSession 200 100 envC10 none = some out ∧
        out.scopeSession = none ∧ out.clearCalls = 1) ∧
    (∀ (now2 rp2 : Int) (env2 : StoreEnv), env2.load1 = Except.ok none →
        loadSession now2 rp2 env2 none =
          some { scopeSession := none, nextCalls := 1, clearCalls := 0,
                 trace := Trace.empty })) :=
  c10_absent_after_wait_is_fatal 200 100 envC10 sess0 1 (by decide) rfl rfl rfl
    (by decide) (by decide)

/-- A step of task A preserves the lock invariant. -/
theorem stepA_lockInv (s : Sys) (h : lockInv s) : lockInv (stepA s) := by
  obtain ⟨lh, ⟨pcA, wA⟩, ⟨pcB, wB⟩, n⟩ := s
  cases pcA <;> cases wA <;> rcases lh with _ | b <;> (try cases b) <;>
    simp_all [lockInv, inCSb, stepA]

/-- A step of task B preserves the lock invariant. -/
theorem stepB_lockInv (s : Sys) (h : lockInv s) : lockInv (stepB s) := by
  obtain ⟨lh, ⟨pcA, wA⟩, ⟨pcB, wB⟩, n⟩ := s
  cases pcB <;> cases wB <;> rcases lh with _ | b <;> (try cases b) <;>
    simp_all [lockInv, inCSb, stepB]

/-- Any schedule preserves the lock invariant. -/
theorem runSched_lockInv (sched : List Bool) (s : Sys) (h : lockInv s) :
    lockInv (runSched sched s) := by
  induction sched generalizing s with
  | nil => exact h
  | cons i rest ih =>
    refine ih (stepTask s i) ?_
    cases i
    · exact stepA_lockInv s h
    · exact stepB_lockInv s h

/-- C4 as amended: mutual exclusion holds in the two-request interleaving
model: under every schedule, at no instant are both requests inside the
refresh critical section (between obtaining and releasing the lock). -/
theorem c4_mutual_exclusion (sched : List Bool) :
    (inCSb (runSched sched initSys).taskA && inCSb (runSched sched initSys).taskB) = false := by
  have h := runSched_lockInv sched initSys (by constructor <;> simp [initSys, inCSb])
  obtain ⟨hA, hB⟩ := h
  cases hcs : inCSb (runSched sched initSys).taskA
  · rfl
  · have h1 := hA.mp hcs
    cases hcs2 : inCSb (runSched sched initSys).taskB
    · rfl
    · have h2 := hB.mp hcs2
      rw [h1] at h2
      simp at h2

/-- C4 counterexample: a schedule of two concurrent requests, both finding
refresh due, under which the provider refresh callback is invoked twice
and both requests complete: request A peeks the lock free, request B peeks
it free as well, A obtains, refreshes and releases, then B obtains the now
free lock and refreshes again.  This refutes the exactly-once claim. -/
theorem c4_counterexample :
    (runSched [false, true, false, false, false, true, true, true] initSys).callbackCalls = 2 ∧
    (runSched [false, true, false, false, false, true, true, true] initSys).taskA.pc
      = TaskPC.donePC ∧
    (runSched [false, true, false, false, false, true, true, true] initSys).taskB.pc
      = TaskPC.donePC := by
  refine ⟨?_, ?_, ?_⟩ <;> decide

end StoredSession
